import Mathlib

/-!
Verification of `TorchGradientOptimizer` (src/optimizers/nonlearnable.py).

The source drives a generic first/second-order numeric optimizer over a
single latent parameter: `restore` obtains an initial latent estimate from
the degradation collaborator, wraps it in a differentiable parameter,
constructs the external optimizer once, and then performs `num_steps`
iterations, each consisting of one optimizer step (driven by a re-invocable
closure that clears the gradient, recomputes the loss and backpropagates)
followed by a projection written back into the parameter's raw data.

Shallow embedding choices:
* Tensors are values of an abstract type `T` (with `Add T` for gradient
  accumulation); scalar loss values are rationals.
* A `nn.Parameter` is a `Param T`: an object identity tag `pid`, its raw
  `data`, its accumulated gradient `grad : Option T` (`none` models a
  cleared / never-populated `.grad`), and a ghost counter `nEvals` of how
  many times the objective was evaluated on it (used only to state
  evaluation-count properties; it does not influence any data).
* Autograd is embedded by letting the objective return a `LossVal`: the
  scalar value, whether the value supports gradient computation
  (`requiresGrad`), and the gradient of the loss at the current latent
  (what `loss.backward()` would accumulate into `.grad`).
* `th.is_grad_enabled()` is an ambient boolean passed explicitly.
* The opaque external optimizer (`th.optim.Optimizer`) is a sequence of
  closure-call/in-place-update rounds: `step closure` invokes the closure
  and then updates the bound parameter's `data` from `(data, grad)`, once
  per round.  Plain SGD is the one-round instance; line-search optimizers
  have several rounds.  Construction (`self.optimizer([images], **kwargs)`)
  may raise, so it is modelled as `Param T → Except E (ExtOptimizer T)`.
* Mutable state visible to the loop — the observation tensor and the single
  latent parameter — is threaded explicitly as a `RestoreState`.
* A ghost event trace (`REvent`) records parameter wrapping, optimizer
  construction, optimizer steps and projection applications, to state
  ordering and count properties of the loop.
-/

namespace TorchGradientOptimizer

/-- A wrapped latent parameter (`nn.Parameter`): object identity `pid`, raw
tensor content `data`, accumulated gradient `grad` (`none` = cleared), and a
ghost count `nEvals` of objective evaluations performed on it. -/
structure Param (T : Type) where
  pid : Nat
  data : T
  grad : Option T
  nEvals : Nat
deriving Repr, DecidableEq

/-- The result of evaluating the objective: scalar `value`, whether it
carries a gradient graph (`requiresGrad`), and the gradient of the loss at
the current latent estimate (what backpropagation would accumulate). -/
structure LossVal (T : Type) where
  value : ℚ
  requiresGrad : Bool
  grad : T
deriving Repr, DecidableEq

/-- The mutable state a restore call owns: the caller's observation tensor
and the single wrapped latent parameter. -/
structure RestoreState (T : Type) where
  observation : T
  latent : Param T
deriving Repr, DecidableEq

/-- Ghost events of one restore call: wrapping the initial estimate into a
parameter, constructing the external optimizer, one logical optimizer step,
one projection application. -/
inductive REvent where
  | initParams
  | initOptimizer
  | optStep
  | projection
deriving Repr, DecidableEq

/-- `loss.backward()` accumulates the new gradient into `.grad`: a cleared
gradient is populated, an existing one is added to. -/
def accumGrad {T : Type} [Add T] : Option T → T → Option T
  | none, g => some g
  | some g0, g => some (g0 + g)

/-- The closure of `perform_step` (src/optimizers/nonlearnable.py:63-69):
if gradient computation is enabled, clear the parameter's gradient
(`optimizer.zero_grad()`); evaluate the objective on the current latent and
the observation; if the loss supports gradients, backpropagate; return the
loss.  The ghost counter `nEvals` records the objective evaluation. -/
def closure {T : Type} [Add T] (gradEnabled : Bool) (obj : T → T → LossVal T)
    (s : RestoreState T) : RestoreState T × LossVal T :=
  let s1 := if gradEnabled then { s with latent.grad := none } else s
  let loss := obj s1.latent.data s1.observation
  let s2 := { s1 with latent.nEvals := s1.latent.nEvals + 1 }
  let s3 := if loss.requiresGrad then
      { s2 with latent.grad := accumGrad s2.latent.grad loss.grad }
    else s2
  (s3, loss)

/-- The opaque external optimizer: one logical `step(closure)` is a sequence
of rounds, each invoking the closure and then updating the bound parameter's
raw data in place from the current `(data, grad)`.  Plain gradient descent
has exactly one round; line-search optimizers have several. -/
structure ExtOptimizer (T : Type) where
  updates : List (T → Option T → T)

/-- `optimizer.step(closure)`: for each round, invoke the closure and apply
the round's in-place update to the parameter's data.  Only the bound
parameter's `data` is ever written, matching the PyTorch optimizer contract. -/
def ExtOptimizer.step {T : Type} (opt : ExtOptimizer T)
    (cl : RestoreState T → RestoreState T × LossVal T)
    (s : RestoreState T) : RestoreState T :=
  opt.updates.foldl
    (fun s u =>
      let s1 := (cl s).1
      { s1 with latent.data := u s1.latent.data s1.latent.grad }) s

/-- `TorchGradientOptimizer.perform_step` (src/optimizers/nonlearnable.py:52-71):
define the closure and hand it to `optimizer.step`; the latent parameter is
updated in place and the same object is returned. -/
def perform_step {T : Type} [Add T] (opt : ExtOptimizer T) (gradEnabled : Bool)
    (obj : T → T → LossVal T) (s : RestoreState T) : RestoreState T :=
  opt.step (closure gradEnabled obj) s

/-- `TorchGradientOptimizer._initialize_params` (src/optimizers/nonlearnable.py:31-40):
wrap the raw initial estimate into a fresh gradient-tracking parameter. -/
def initialize_params {T : Type} (images : T) : Param T :=
  { pid := 0, data := images, grad := none, nEvals := 0 }

/-- The body of one loop iteration of `restore`
(src/optimizers/nonlearnable.py:85-86): one optimizer step, then the
projection applied to the raw data and written back into the parameter. -/
def stepAndProject {T : Type} [Add T] (opt : ExtOptimizer T) (gradEnabled : Bool)
    (obj : T → T → LossVal T) (project : T → T) (s : RestoreState T) :
    RestoreState T :=
  let s1 := perform_step opt gradEnabled obj s
  { s1 with latent.data := project s1.latent.data }

/-- `TorchGradientOptimizer.restore` (src/optimizers/nonlearnable.py:73-87)
with its ghost event trace: obtain the initial latent estimate
(`self.degradation.init_latent_images`), wrap it (`_initialize_params`),
construct the external optimizer once (`_initialize_optimizer`, which may
raise — `Except.error`), run `num_steps` iterations of step-then-project
(`range` of a negative count is empty, hence `Int.toNat`), and return the
final state.  The event list records the order of the ghost events. -/
def restoreTraced {T E : Type} [Add T] (mkOptimizer : Param T → Except E (ExtOptimizer T))
    (init_latent_images : T → T) (project : T → T) (num_steps : Int)
    (gradEnabled : Bool) (obj : T → T → LossVal T) (degraded_images : T) :
    Except E (RestoreState T) × List REvent :=
  let p0 := initialize_params (init_latent_images degraded_images)
  let s0 : RestoreState T := { observation := degraded_images, latent := p0 }
  match mkOptimizer p0 with
  | .error e => (.error e, [REvent.initParams, REvent.initOptimizer])
  | .ok opt =>
      let r := (List.range num_steps.toNat).foldl
        (fun st _ => (stepAndProject opt gradEnabled obj project st.1,
                      st.2 ++ [REvent.optStep, REvent.projection]))
        (s0, [REvent.initParams, REvent.initOptimizer])
      (.ok r.1, r.2)

/-- `TorchGradientOptimizer.restore`'s return value
(src/optimizers/nonlearnable.py:87): the raw data of the latent parameter
after the loop. -/
def restore {T E : Type} [Add T] (mkOptimizer : Param T → Except E (ExtOptimizer T))
    (init_latent_images : T → T) (project : T → T) (num_steps : Int)
    (gradEnabled : Bool) (obj : T → T → LossVal T) (degraded_images : T) :
    Except E T :=
  ((restoreTraced mkOptimizer init_latent_images project num_steps gradEnabled
      obj degraded_images).1).map (fun s => s.latent.data)

/-- Elementwise addition of flat tensors represented as lists of rationals
(used by gradient accumulation in the concrete instantiations). -/
instance : Add (List ℚ) :=
  ⟨List.zipWith (· + ·)⟩

/-- A constant, non-differentiable objective on scalar tensors (a concrete
instantiation for witnesses: fidelity and prior together are constant). -/
def constObj : ℚ → ℚ → LossVal ℚ :=
  fun _ _ => { value := 0, requiresGrad := false, grad := 0 }

/-- A concrete external optimizer whose single round leaves the data
unchanged (a successfully constructed no-op optimizer). -/
def trivialOptimizer : ExtOptimizer ℚ :=
  { updates := [fun d _ => d] }

/-- A concrete optimizer constructor that always succeeds, returning the
no-op optimizer. -/
def okOptimizer : Param ℚ → Except Unit (ExtOptimizer ℚ) :=
  fun _ => .ok trivialOptimizer

/-- A concrete idempotent projection on scalar tensors: everything is
projected to `0`. -/
def projZero : ℚ → ℚ :=
  fun _ => 0

/-- A concrete differentiable objective on scalar tensors: squared error to
the observation, with its analytic gradient. -/
def sqObj : ℚ → ℚ → LossVal ℚ :=
  fun x y => { value := (x - y) ^ 2, requiresGrad := true, grad := 2 * (x - y) }

/-- Modelled from the spec: `OptimizerBase.objective` (src/optimizers/base.py
is not among the repository's files) combines the collaborators as
`fidelity(latent, observation) + prior_weight * prior(latent)`.  Here it is
instantiated for the concrete test scenario: fidelity is the squared error
to the observation, the prior is identically `0`, so the objective value is
the squared error plus a vanishing prior term; the gradient is the analytic
gradient `2 * (latent - observation)` that backpropagation computes for it. -/
def c9Objective (latent degraded : List ℚ) : LossVal (List ℚ) :=
  { value := (List.zipWith (fun a b => (a - b) ^ 2) latent degraded).sum + 0 * 0,
    requiresGrad := true,
    grad := List.zipWith (fun a b => 2 * (a - b)) latent degraded }

/-- Plain gradient descent with learning rate `lr`: one closure call per
step, then `data := data - lr * grad` elementwise (a parameter whose
gradient was never populated is left unchanged, as PyTorch SGD does). -/
def sgdOptimizer (lr : ℚ) : ExtOptimizer (List ℚ) :=
  { updates := [fun d g => match g with
      | none => d
      | some gr => List.zipWith (fun a b => a - lr * b) d gr] }

end TorchGradientOptimizer

namespace TorchGradientOptimizer

theorem foldl_invariant {α β : Type} (f : α → β → α) (P : α → Prop)
    (h : ∀ a b, P a → P (f a b)) : ∀ (l : List β) (a : α), P a → P (l.foldl f a)
  | [], _, ha => ha
  | b :: l, a, ha => foldl_invariant f P h l (f a b) (h a b ha)

theorem foldl_range_pair {α β : Type} (f : α → α) (evStep : List β) :
    ∀ (n : Nat) (s : α) (evs : List β),
      (List.range n).foldl (fun st _ => (f st.1, st.2 ++ evStep)) (s, evs)
        = (f^[n] s, evs ++ (List.replicate n evStep).flatten)
  | 0, s, evs => by simp
  | n + 1, s, evs => by
      rw [List.range_succ, List.foldl_append, foldl_range_pair f evStep n s evs]
      simp [Function.iterate_succ_apply', List.replicate_succ' n, List.flatten_append]

theorem count_join_replicate {β : Type} [DecidableEq β] (a : β) (l : List β) :
    ∀ n : Nat, ((List.replicate n l).flatten).count a = n * l.count a
  | 0 => by simp
  | n + 1 => by
      simp [List.replicate_succ, count_join_replicate a l n, Nat.succ_mul,
        Nat.add_comm]

theorem closure_observation {T : Type} [Add T] (gradEnabled : Bool)
    (obj : T → T → LossVal T) (s : RestoreState T) :
    ((closure gradEnabled obj s).1).observation = s.observation := by
  cases gradEnabled <;> simp [closure] <;> split <;> simp_all

theorem closure_pid {T : Type} [Add T] (gradEnabled : Bool)
    (obj : T → T → LossVal T) (s : RestoreState T) :
    ((closure gradEnabled obj s).1).latent.pid = s.latent.pid := by
  cases gradEnabled <;> simp [closure] <;> split <;> simp_all

theorem closure_data {T : Type} [Add T] (gradEnabled : Bool)
    (obj : T → T → LossVal T) (s : RestoreState T) :
    ((closure gradEnabled obj s).1).latent.data = s.latent.data := by
  cases gradEnabled <;> simp [closure] <;> split <;> simp_all

theorem closure_nEvals {T : Type} [Add T] (gradEnabled : Bool)
    (obj : T → T → LossVal T) (s : RestoreState T) :
    ((closure gradEnabled obj s).1).latent.nEvals = s.latent.nEvals + 1 := by
  cases gradEnabled <;> simp [closure] <;> split <;> simp_all

theorem perform_step_observation {T : Type} [Add T] (opt : ExtOptimizer T)
    (gradEnabled : Bool) (obj : T → T → LossVal T) (s : RestoreState T) :
    (perform_step opt gradEnabled obj s).observation = s.observation := by
  have h := foldl_invariant
    (fun s u =>
      let s1 := (closure gradEnabled obj s).1
      { s1 with latent.data := u s1.latent.data s1.latent.grad })
    (fun q => q.observation = s.observation)
    (fun a b ha => by simpa [closure_observation] using ha)
    opt.updates s rfl
  simpa [perform_step, ExtOptimizer.step] using h

theorem perform_step_pid {T : Type} [Add T] (opt : ExtOptimizer T)
    (gradEnabled : Bool) (obj : T → T → LossVal T) (s : RestoreState T) :
    (perform_step opt gradEnabled obj s).latent.pid = s.latent.pid := by
  have h := foldl_invariant
    (fun s u =>
      let s1 := (closure gradEnabled obj s).1
      { s1 with latent.data := u s1.latent.data s1.latent.grad })
    (fun q => q.latent.pid = s.latent.pid)
    (fun a b ha => by simpa [closure_pid] using ha)
    opt.updates s rfl
  simpa [perform_step, ExtOptimizer.step] using h

theorem step_nEvals_aux {T : Type} [Add T] (gradEnabled : Bool)
    (obj : T → T → LossVal T) (l : List (T → Option T → T)) :
    ∀ (s : RestoreState T),
      (l.foldl (fun s u =>
          let s1 := (closure gradEnabled obj s).1
          { s1 with latent.data := u s1.latent.data s1.latent.grad }) s).latent.nEvals
        = s.latent.nEvals + l.length := by
  induction l with
  | nil => intro s; simp
  | cons u l ih =>
      intro s
      simp only [List.foldl_cons]
      rw [ih]
      simp [closure_nEvals]
      omega

theorem perform_step_nEvals {T : Type} [Add T] (opt : ExtOptimizer T)
    (gradEnabled : Bool) (obj : T → T → LossVal T) (s : RestoreState T) :
    (perform_step opt gradEnabled obj s).latent.nEvals
      = s.latent.nEvals + opt.updates.length := by
  simpa [perform_step, ExtOptimizer.step] using
    step_nEvals_aux gradEnabled obj opt.updates s

theorem stepAndProject_observation {T : Type} [Add T] (opt : ExtOptimizer T)
    (gradEnabled : Bool) (obj : T → T → LossVal T) (project : T → T)
    (s : RestoreState T) :
    (stepAndProject opt gradEnabled obj project s).observation = s.observation := by
  simp [stepAndProject, perform_step_observation]

theorem stepAndProject_pid {T : Type} [Add T] (opt : ExtOptimizer T)
    (gradEnabled : Bool) (obj : T → T → LossVal T) (project : T → T)
    (s : RestoreState T) :
    (stepAndProject opt gradEnabled obj project s).latent.pid = s.latent.pid := by
  simp [stepAndProject, perform_step_pid]

theorem stepAndProject_nEvals {T : Type} [Add T] (opt : ExtOptimizer T)
    (gradEnabled : Bool) (obj : T → T → LossVal T) (project : T → T)
    (s : RestoreState T) :
    (stepAndProject opt gradEnabled obj project s).latent.nEvals
      = s.latent.nEvals + opt.updates.length := by
  simpa [stepAndProject] using perform_step_nEvals opt gradEnabled obj s

theorem iterate_stepAndProject_observation {T : Type} [Add T] (opt : ExtOptimizer T)
    (gradEnabled : Bool) (obj : T → T → LossVal T) (project : T → T) :
    ∀ (n : Nat) (s : RestoreState T),
      ((stepAndProject opt gradEnabled obj project)^[n] s).observation
        = s.observation
  | 0, s => rfl
  | n + 1, s => by
      rw [Function.iterate_succ_apply', stepAndProject_observation,
        iterate_stepAndProject_observation opt gradEnabled obj project n s]

theorem iterate_stepAndProject_pid {T : Type} [Add T] (opt : ExtOptimizer T)
    (gradEnabled : Bool) (obj : T → T → LossVal T) (project : T → T) :
    ∀ (n : Nat) (s : RestoreState T),
      ((stepAndProject opt gradEnabled obj project)^[n] s).latent.pid
        = s.latent.pid
  | 0, s => rfl
  | n + 1, s => by
      rw [Function.iterate_succ_apply', stepAndProject_pid,
        iterate_stepAndProject_pid opt gradEnabled obj project n s]

theorem iterate_stepAndProject_nEvals {T : Type} [Add T] (opt : ExtOptimizer T)
    (gradEnabled : Bool) (obj : T → T → LossVal T) (project : T → T) :
    ∀ (n : Nat) (s : RestoreState T),
      ((stepAndProject opt gradEnabled obj project)^[n] s).latent.nEvals
        = s.latent.nEvals + n * opt.updates.length
  | 0, s => by simp
  | n + 1, s => by
      rw [Function.iterate_succ_apply', stepAndProject_nEvals,
        iterate_stepAndProject_nEvals opt gradEnabled obj project n s]
      ring

/-- The shape of a successful restore call: the final state is the
`num_steps.toNat`-fold iterate of step-then-project on the initial state, and
the ghost trace is the two initialization events followed by `num_steps.toNat`
interleaved step/projection pairs. -/
theorem restoreTraced_ok {T E : Type} [Add T] (mkOptimizer : Param T → Except E (ExtOptimizer T))
    (init_latent_images : T → T) (project : T → T) (num_steps : Int)
    (gradEnabled : Bool) (obj : T → T → LossVal T) (degraded_images : T)
    (opt : ExtOptimizer T)
    (hok : mkOptimizer (initialize_params (init_latent_images degraded_images)) = .ok opt) :
    restoreTraced mkOptimizer init_latent_images project num_steps gradEnabled
        obj degraded_images
      = (.ok ((stepAndProject opt gradEnabled obj project)^[num_steps.toNat]
            { observation := degraded_images,
              latent := initialize_params (init_latent_images degraded_images) }),
         [REvent.initParams, REvent.initOptimizer]
           ++ (List.replicate num_steps.toNat [REvent.optStep, REvent.projection]).flatten) := by
  simp only [restoreTraced, hok]
  rw [foldl_range_pair]

/-- A successful restore with at least one step returns the projection of
the parameter data produced by the last optimizer step. -/
theorem restore_ok_last_projection {T E : Type} [Add T]
    (mkOptimizer : Param T → Except E (ExtOptimizer T))
    (init_latent_images : T → T) (project : T → T) (num_steps : Int)
    (gradEnabled : Bool) (obj : T → T → LossVal T) (degraded_images : T)
    (opt : ExtOptimizer T) (hn : 1 ≤ num_steps)
    (hok : mkOptimizer (initialize_params (init_latent_images degraded_images)) = .ok opt) :
    restore mkOptimizer init_latent_images project num_steps gradEnabled obj
        degraded_images
      = .ok (project ((perform_step opt gradEnabled obj
          ((stepAndProject opt gradEnabled obj project)^[num_steps.toNat - 1]
            { observation := degraded_images,
              latent := initialize_params (init_latent_images degraded_images) })).latent.data)) := by
  have hm : num_steps.toNat = (num_steps.toNat - 1) + 1 := by omega
  rw [restore, restoreTraced_ok mkOptimizer init_latent_images project num_steps
    gradEnabled obj degraded_images opt hok]
  simp only [Except.map]
  rw [hm, Function.iterate_succ_apply']
  rfl

/-- C1: for `num_steps = 0`, `restore` returns exactly the initial latent
estimate produced by the degradation collaborator's `init_latent_images`
applied to the observation; the ghost trace records no optimizer step and no
projection application, so the projection function is never applied and no
optimizer update is performed. -/
theorem restore_zero_steps {T E : Type} [Add T]
    (mkOptimizer : Param T → Except E (ExtOptimizer T))
    (init_latent_images : T → T) (project : T → T) (gradEnabled : Bool)
    (obj : T → T → LossVal T) (degraded_images : T) (opt : ExtOptimizer T)
    (hok : mkOptimizer (initialize_params (init_latent_images degraded_images)) = .ok opt) :
    restore mkOptimizer init_latent_images project 0 gradEnabled obj degraded_images
        = .ok (init_latent_images degraded_images)
      ∧ (restoreTraced mkOptimizer init_latent_images project 0 gradEnabled obj
          degraded_images).2 = [REvent.initParams, REvent.initOptimizer] := by
  have h := restoreTraced_ok mkOptimizer init_latent_images project 0 gradEnabled
    obj degraded_images opt hok
  constructor
  · rw [restore, h]
    rfl
  · rw [h]
    rfl

/-- Witness for C1 at a concrete instantiation. -/
theorem restore_zero_steps_witness :
    restore okOptimizer id id 0 true constObj (5 : ℚ) = .ok 5
      ∧ (restoreTraced okOptimizer id id 0 true constObj (5 : ℚ)).2
          = [REvent.initParams, REvent.initOptimizer] :=
  restore_zero_steps okOptimizer id id true constObj 5 trivialOptimizer rfl

/-- C10: a negative `num_steps` behaves exactly as `num_steps = 0`: the
traced run is identical, `restore` returns the same result, and the returned
value is the initial latent estimate (the loop body never executes); the
negative count is silently treated as zero rather than rejected. -/
theorem restore_negative_steps {T E : Type} [Add T]
    (mkOptimizer : Param T → Except E (ExtOptimizer T))
    (init_latent_images : T → T) (project : T → T) (num_steps : Int)
    (gradEnabled : Bool) (obj : T → T → LossVal T) (degraded_images : T)
    (hneg : num_steps < 0) :
    restoreTraced mkOptimizer init_latent_images project num_steps gradEnabled obj
        degraded_images
      = restoreTraced mkOptimizer init_latent_images project 0 gradEnabled obj
          degraded_images
      ∧ restore mkOptimizer init_latent_images project num_steps gradEnabled obj
          degraded_images
        = restore mkOptimizer init_latent_images project 0 gradEnabled obj
            degraded_images
      ∧ ((restoreTraced mkOptimizer init_latent_images project num_steps gradEnabled obj
            degraded_images).1).map (fun s => s.latent.data)
        = ((restoreTraced mkOptimizer init_latent_images project num_steps gradEnabled obj
            degraded_images).1).map (fun _ => init_latent_images degraded_images) := by
  have htn : num_steps.toNat = 0 := by omega
  have h0 : restoreTraced mkOptimizer init_latent_images project num_steps gradEnabled obj
      degraded_images
    = restoreTraced mkOptimizer init_latent_images project 0 gradEnabled obj
        degraded_images := by
    simp only [restoreTraced, htn, Int.toNat_zero]
  refine ⟨h0, by rw [restore, restore, h0], ?_⟩
  rw [h0]
  cases hmk : mkOptimizer (initialize_params (init_latent_images degraded_images)) with
  | error e => simp [restoreTraced, hmk, Except.map]
  | ok opt =>
      rw [restoreTraced_ok mkOptimizer init_latent_images project 0 gradEnabled
        obj degraded_images opt hmk]
      rfl

/-- Witness for C10 at a concrete instantiation with `num_steps = -1`. -/
theorem restore_negative_steps_witness :
    restoreTraced okOptimizer id id (-1) true constObj (7 : ℚ)
        = restoreTraced okOptimizer id id 0 true constObj 7
      ∧ restore okOptimizer id id (-1) true constObj 7
          = restore okOptimizer id id 0 true constObj 7
      ∧ ((restoreTraced okOptimizer id id (-1) true constObj (7 : ℚ)).1).map
            (fun s => s.latent.data)
          = ((restoreTraced okOptimizer id id (-1) true constObj (7 : ℚ)).1).map
              (fun _ => id 7) :=
  restore_negative_steps okOptimizer id id (-1) true constObj 7 (by decide)

/-- C7: the ghost trace of every restore call contains exactly one optimizer
construction, placed before any optimizer step (it is the second event, right
after parameter wrapping); and when construction fails — an invalid
hyperparameter raising in `self.optimizer([images], **kwargs)` — `restore`
propagates the error with no optimizer step and no projection executed. -/
theorem restore_optimizer_init_once {T E : Type} [Add T]
    (mkOptimizer : Param T → Except E (ExtOptimizer T))
    (init_latent_images : T → T) (project : T → T) (num_steps : Int)
    (gradEnabled : Bool) (obj : T → T → LossVal T) (degraded_images : T) (e : E) :
    ((restoreTraced mkOptimizer init_latent_images project num_steps gradEnabled obj
        degraded_images).2).count REvent.initOptimizer = 1
      ∧ ((restoreTraced mkOptimizer init_latent_images project num_steps gradEnabled obj
          degraded_images).2).take 2 = [REvent.initParams, REvent.initOptimizer]
      ∧ restore (fun _ => Except.error e) init_latent_images project num_steps
          gradEnabled obj degraded_images = .error e
      ∧ (restoreTraced (fun _ => Except.error e) init_latent_images project num_steps
          gradEnabled obj degraded_images).2
          = [REvent.initParams, REvent.initOptimizer] := by
  refine ⟨?_, ?_, by simp [restore, restoreTraced, Except.map], by simp [restoreTraced]⟩
  · cases hmk : mkOptimizer (initialize_params (init_latent_images degraded_images)) with
    | error e' => simp [restoreTraced, hmk]
    | ok opt =>
        rw [restoreTraced_ok mkOptimizer init_latent_images project num_steps gradEnabled
          obj degraded_images opt hmk]
        simp [List.count_append, count_join_replicate]
  · cases hmk : mkOptimizer (initialize_params (init_latent_images degraded_images)) with
    | error e' => simp [restoreTraced, hmk]
    | ok opt =>
        rw [restoreTraced_ok mkOptimizer init_latent_images project num_steps gradEnabled
          obj degraded_images opt hmk]
        rfl

/-- C8: `restore` never modifies the observation tensor: in the threaded
state of a successful run, the observation after the loop is the very
observation passed in (the collaborators are pure functions of it). -/
theorem restore_preserves_observation {T E : Type} [Add T]
    (mkOptimizer : Param T → Except E (ExtOptimizer T))
    (init_latent_images : T → T) (project : T → T) (num_steps : Int)
    (gradEnabled : Bool) (obj : T → T → LossVal T) (degraded_images : T) :
    ((restoreTraced mkOptimizer init_latent_images project num_steps gradEnabled obj
        degraded_images).1).map (fun s => s.observation)
      = ((restoreTraced mkOptimizer init_latent_images project num_steps gradEnabled obj
          degraded_images).1).map (fun _ => degraded_images) := by
  cases hmk : mkOptimizer (initialize_params (init_latent_images degraded_images)) with
  | error e => simp [restoreTraced, hmk, Except.map]
  | ok opt =>
      rw [restoreTraced_ok mkOptimizer init_latent_images project num_steps gradEnabled
        obj degraded_images opt hmk]
      simp [Except.map, iterate_stepAndProject_observation]

/-- C6: exactly one latent parameter object exists for the duration of a
restore call: `perform_step` returns a state whose parameter has the same
object identity it was given, the per-iteration projection write-back keeps
that identity, the final parameter of a successful run carries the identity
of the freshly wrapped initial parameter, and the value `restore` returns is
read from that same parameter's raw data. -/
theorem restore_single_parameter {T E : Type} [Add T]
    (mkOptimizer : Param T → Except E (ExtOptimizer T))
    (init_latent_images : T → T) (project : T → T) (num_steps : Int)
    (gradEnabled : Bool) (obj : T → T → LossVal T) (degraded_images : T)
    (opt : ExtOptimizer T) :
    (∀ s : RestoreState T,
        (perform_step opt gradEnabled obj s).latent.pid = s.latent.pid)
      ∧ (∀ s : RestoreState T,
          (stepAndProject opt gradEnabled obj project s).latent.pid = s.latent.pid)
      ∧ ((restoreTraced mkOptimizer init_latent_images project num_steps gradEnabled obj
            degraded_images).1).map (fun s => s.latent.pid)
        = ((restoreTraced mkOptimizer init_latent_images project num_steps gradEnabled obj
            degraded_images).1).map
            (fun _ => (initialize_params (init_latent_images degraded_images)).pid)
      ∧ restore mkOptimizer init_latent_images project num_steps gradEnabled obj
          degraded_images
        = ((restoreTraced mkOptimizer init_latent_images project num_steps gradEnabled obj
            degraded_images).1).map (fun s => s.latent.data) := by
  refine ⟨perform_step_pid opt gradEnabled obj,
    stepAndProject_pid opt gradEnabled obj project, ?_, rfl⟩
  cases hmk : mkOptimizer (initialize_params (init_latent_images degraded_images)) with
  | error e => simp [restoreTraced, hmk, Except.map]
  | ok opt' =>
      rw [restoreTraced_ok mkOptimizer init_latent_images project num_steps gradEnabled
        obj degraded_images opt' hmk]
      simp [Except.map, iterate_stepAndProject_pid]

/-- C2: for `num_steps ≥ 1` (with the optimizer successfully constructed and
invoking the closure at least once per logical step, as every
closure-driven PyTorch optimizer does), a restore call performs exactly
`num_steps` optimizer updates interleaved with exactly `num_steps`
projection applications (the ghost trace is the two initialization events
followed by `num_steps` step/projection pairs), the objective is evaluated
at least once per configured step, and the returned estimate is the value
produced by the last projection. -/
theorem restore_step_count {T E : Type} [Add T]
    (mkOptimizer : Param T → Except E (ExtOptimizer T))
    (init_latent_images : T → T) (project : T → T) (num_steps : Int)
    (gradEnabled : Bool) (obj : T → T → LossVal T) (degraded_images : T)
    (opt : ExtOptimizer T) (hn : 1 ≤ num_steps)
    (hok : mkOptimizer (initialize_params (init_latent_images degraded_images)) = .ok opt)
    (hcalls : 1 ≤ opt.updates.length) :
    (restoreTraced mkOptimizer init_latent_images project num_steps gradEnabled obj
        degraded_images).2
      = [REvent.initParams, REvent.initOptimizer]
        ++ (List.replicate num_steps.toNat [REvent.optStep, REvent.projection]).flatten
      ∧ ((restoreTraced mkOptimizer init_latent_images project num_steps gradEnabled obj
          degraded_images).2).count REvent.optStep = num_steps.toNat
      ∧ ((restoreTraced mkOptimizer init_latent_images project num_steps gradEnabled obj
          degraded_images).2).count REvent.projection = num_steps.toNat
      ∧ (restoreTraced mkOptimizer init_latent_images project num_steps gradEnabled obj
          degraded_images).1
        = .ok ((stepAndProject opt gradEnabled obj project)^[num_steps.toNat]
            { observation := degraded_images,
              latent := initialize_params (init_latent_images degraded_images) })
      ∧ ((stepAndProject opt gradEnabled obj project)^[num_steps.toNat]
          { observation := degraded_images,
            latent := initialize_params (init_latent_images degraded_images)
              : RestoreState T }).latent.nEvals
        = num_steps.toNat * opt.updates.length
      ∧ num_steps.toNat
        ≤ ((stepAndProject opt gradEnabled obj project)^[num_steps.toNat]
            { observation := degraded_images,
              latent := initialize_params (init_latent_images degraded_images)
                : RestoreState T }).latent.nEvals
      ∧ restore mkOptimizer init_latent_images project num_steps gradEnabled obj
          degraded_images
        = .ok (project ((perform_step opt gradEnabled obj
            ((stepAndProject opt gradEnabled obj project)^[num_steps.toNat - 1]
              { observation := degraded_images,
                latent := initialize_params (init_latent_images degraded_images) })).latent.data)) := by
  have h := restoreTraced_ok mkOptimizer init_latent_images project num_steps gradEnabled
    obj degraded_images opt hok
  have hev : ((stepAndProject opt gradEnabled obj project)^[num_steps.toNat]
      { observation := degraded_images,
        latent := initialize_params (init_latent_images degraded_images)
          : RestoreState T }).latent.nEvals
      = num_steps.toNat * opt.updates.length := by
    rw [iterate_stepAndProject_nEvals]
    simp [initialize_params]
  refine ⟨by rw [h], ?_, ?_, by rw [h], hev, ?_, ?_⟩
  · rw [h]
    simp [List.count_append, count_join_replicate]
  · rw [h]
    simp [List.count_append, count_join_replicate]
  · rw [hev]
    exact Nat.le_mul_of_pos_right _ hcalls
  · exact restore_ok_last_projection mkOptimizer init_latent_images project num_steps
      gradEnabled obj degraded_images opt hn hok

/-- Witness for C2 at a concrete instantiation with one step: the returned
estimate is the projection of the data after the (single, last) optimizer
step. -/
theorem restore_step_count_witness :
    restore okOptimizer id id 1 true constObj (2 : ℚ)
      = .ok (id ((perform_step trivialOptimizer true constObj
          ((stepAndProject trivialOptimizer true constObj id)^[(1 : Int).toNat - 1]
            { observation := (2 : ℚ),
              latent := initialize_params (id (2 : ℚ)) })).latent.data)) :=
  (restore_step_count okOptimizer id id 1 true constObj 2 trivialOptimizer
      (by decide) rfl (by decide)).2.2.2.2.2.2

/-- C3 (counterexample): with zero configured steps the projection is never
applied, so an idempotent projection need not fix the returned estimate:
projecting everything to `0` is idempotent, yet `restore` on observation `1`
returns `1`, which the projection does not fix. -/
theorem restore_idempotent_projection_cex :
    (projZero ∘ projZero = projZero)
      ∧ restore okOptimizer id projZero 0 true constObj (1 : ℚ) = .ok 1
      ∧ projZero 1 ≠ (1 : ℚ) :=
  ⟨rfl, rfl, by simp [projZero]⟩

/-- C3 (amended): for every observation, every idempotent projection
function, and at least one configured step (with the optimizer successfully
constructed), the estimate returned by `restore` is a fixed point of the
projection: mapping the projection over the result leaves it unchanged. -/
theorem restore_idempotent_projection {T E : Type} [Add T]
    (mkOptimizer : Param T → Except E (ExtOptimizer T))
    (init_latent_images : T → T) (project : T → T) (num_steps : Int)
    (gradEnabled : Bool) (obj : T → T → LossVal T) (degraded_images : T)
    (opt : ExtOptimizer T) (hn : 1 ≤ num_steps)
    (hok : mkOptimizer (initialize_params (init_latent_images degraded_images)) = .ok opt)
    (hidem : ∀ x, project (project x) = project x) :
    (restore mkOptimizer init_latent_images project num_steps gradEnabled obj
        degraded_images).map project
      = restore mkOptimizer init_latent_images project num_steps gradEnabled obj
          degraded_images := by
  rw [restore_ok_last_projection mkOptimizer init_latent_images project num_steps
    gradEnabled obj degraded_images opt hn hok]
  simp [Except.map, hidem]

/-- Witness for the amended C3 at a concrete instantiation. -/
theorem restore_idempotent_projection_witness :
    (restore okOptimizer id projZero 1 true constObj (3 : ℚ)).map projZero
      = restore okOptimizer id projZero 1 true constObj 3 :=
  restore_idempotent_projection okOptimizer id projZero 1 true constObj 3
    trivialOptimizer (by decide) rfl (fun x => rfl)

/-- C4: with gradient computation enabled, each closure invocation first
clears the previously accumulated gradient, so the gradient it leaves on the
latent parameter is a function of the current latent data and observation
only — the gradient populated when the loss supports gradients, cleared
otherwise — and is unchanged if the parameter entered the call with any
other accumulated gradient. -/
theorem closure_gradient_isolation {T : Type} [Add T] (gradEnabled : Bool)
    (obj : T → T → LossVal T) (s : RestoreState T) (g0 : Option T)
    (henabled : gradEnabled = true) :
    ((closure gradEnabled obj s).1).latent.grad
        = (if (obj s.latent.data s.observation).requiresGrad
            then some (obj s.latent.data s.observation).grad else none)
      ∧ ((closure gradEnabled obj { s with latent.grad := g0 }).1).latent.grad
          = ((closure gradEnabled obj s).1).latent.grad := by
  subst henabled
  constructor
  · simp [closure]
    split <;> simp_all [accumGrad]
  · simp [closure]

/-- Witness for C4 at a concrete instantiation: the stale gradient `9` is
discarded, the populated gradient depends only on the current latent data. -/
theorem closure_gradient_isolation_witness :
    ((closure true sqObj
        { observation := (1 : ℚ), latent := initialize_params 3 }).1).latent.grad
        = (if (sqObj 3 1).requiresGrad then some (sqObj 3 1).grad else none)
      ∧ ((closure true sqObj
          { observation := (1 : ℚ),
            latent := { (initialize_params 3) with grad := some 9 } }).1).latent.grad
          = ((closure true sqObj
              { observation := (1 : ℚ), latent := initialize_params 3 }).1).latent.grad :=
  closure_gradient_isolation true sqObj
    { observation := 1, latent := initialize_params 3 } (some 9) rfl

/-- C5: when the computed loss does not support gradient computation, the
closure skips backpropagation instead of failing: it still returns the loss
computed on the current latent data and observation, leaves the parameter's
gradient unpopulated by the invocation (only the unconditional clearing when
gradients are enabled touches it), and changes neither the latent data nor
the observation. -/
theorem closure_nondifferentiable_loss {T : Type} [Add T] (gradEnabled : Bool)
    (obj : T → T → LossVal T) (s : RestoreState T)
    (hng : (obj s.latent.data s.observation).requiresGrad = false) :
    (closure gradEnabled obj s).2 = obj s.latent.data s.observation
      ∧ ((closure gradEnabled obj s).1).latent.grad
          = (if gradEnabled then none else s.latent.grad)
      ∧ ((closure gradEnabled obj s).1).latent.data = s.latent.data
      ∧ ((closure gradEnabled obj s).1).observation = s.observation := by
  cases gradEnabled <;> simp_all [closure]

/-- Witness for C5 at a concrete instantiation: a constant (hence
non-differentiable) objective, gradients disabled, a pre-existing gradient
left in place. -/
theorem closure_nondifferentiable_loss_witness :
    (closure false constObj
        { observation := (2 : ℚ), latent := ⟨0, 5, some 4, 0⟩ }).2 = constObj 5 2
      ∧ ((closure false constObj
          { observation := (2 : ℚ), latent := ⟨0, 5, some 4, 0⟩ }).1).latent.grad
          = (if false then none else some 4)
      ∧ ((closure false constObj
          { observation := (2 : ℚ), latent := ⟨0, 5, some 4, 0⟩ }).1).latent.data = 5
      ∧ ((closure false constObj
          { observation := (2 : ℚ), latent := ⟨0, 5, some 4, 0⟩ }).1).observation = 2 :=
  closure_nondifferentiable_loss false constObj
    { observation := 2, latent := ⟨0, 5, some 4, 0⟩ } rfl

theorem zipWith_replicate_same {α β : Type} (f : α → α → β) (n : Nat) (a b : α) :
    List.zipWith f (List.replicate n a) (List.replicate n b)
      = List.replicate n (f a b) := by
  induction n with
  | zero => rfl
  | succ n ih => simp [List.replicate_succ, ih]

/-- C9: the concrete scenario — a constant-valued 1×1×2×2 observation (four
equal entries), `init_latent_images` the identity, the objective the squared
error to the observation plus a vanishing prior term, the projection the
identity, plain gradient descent with learning rate 1/10, one step —
returns the observation unchanged: the gradient vanishes at the fixed
point, so the single update and projection leave the estimate as it was. -/
theorem restore_fixed_point_scenario (c : ℚ) :
    restore
        (fun _ => (Except.ok (sgdOptimizer (1 / 10)) : Except Unit (ExtOptimizer (List ℚ))))
        id id 1 true c9Objective (List.replicate 4 c)
      = .ok (List.replicate 4 c) := by
  simp [restore, restoreTraced, stepAndProject, perform_step, ExtOptimizer.step,
    closure, c9Objective, sgdOptimizer, accumGrad, initialize_params, Except.map,
    List.range_succ, zipWith_replicate_same]

end TorchGradientOptimizer
